import Mathlib

/- Shallow embedding of the AgentLink MCP server (TypeScript sources under
   src/src and the wrapper script): the provider classes PumpFunAPI,
   PumpFunTrading and TwitterAPI, the tool handlers registered in server.ts,
   the configuration loader of utils/config, and the stdout filter of the
   startup wrapper script. External collaborators (HTTP endpoints, the RPC
   node, the Solana SDK primitives and JS runtime builtins) are abstracted as
   an environment of fixed outcomes per request. -/

namespace AgentLink

/-- A thrown JavaScript Error value: only the message is observable here. -/
structure JsError where
  message : String
deriving DecidableEq

/-- JS string interpolation of an Error value: String(error) yields
    name plus ": " plus message, and the name of a plain Error is "Error". -/
def JsError.display (e : JsError) : String := "Error: " ++ e.message

/-- The amount field of a trade request: a JS number or a string such as
    "100%" (generateSellTransaction accepts number or string). -/
inductive AmountArg where
  | num (n : Rat)
  | str (s : String)
deriving DecidableEq

/-- Request body posted to the pumpportal trade-local endpoint
    (generateBuyTransaction / generateSellTransaction in providers/pumpFun.ts).
    The denominatedInSol field is a string because the source serializes the
    boolean with toString(). -/
structure TradeRequest where
  publicKey : String
  action : String
  mint : String
  amount : AmountArg
  denominatedInSol : String
  slippage : Rat
  priorityFee : Rat
  pool : String
deriving DecidableEq

/-- The request literal built inside generateBuyTransaction and
    generateSellTransaction. -/
def tradeRequest (publicKey action mint : String) (amount : AmountArg)
    (denominatedInSol : Bool) (slippage priorityFee : Rat) (pool : String) :
    TradeRequest :=
  { publicKey := publicKey, action := action, mint := mint, amount := amount,
    denominatedInSol := if denominatedInSol then "true" else "false",
    slippage := slippage, priorityFee := priorityFee, pool := pool }

/-- One outgoing network request of the provider layer. -/
inductive NetCall where
  | tradePortal (req : TradeRequest)
  | rpcSendTransaction
  | moralisMetadata (tokenAddress : String)
  | moralisPrice (tokenAddress : String)
  | moralisGraduated (limit : Nat) (cursor : Option String)
deriving DecidableEq

/-- Outcome of an async method body: a value or a thrown error, together with
    the network requests issued before returning or throwing. -/
structure EffResult (α : Type) where
  result : Except JsError α
  calls : List NetCall

/-- JSON payload returned by a Moralis endpoint (response.data), treated as
    an uninterpreted value by the code under verification. -/
structure MoralisData where
  payload : String
deriving DecidableEq

/-- TokenInfoSchema of providers/pumpFun.ts. -/
structure TokenInfo where
  address : String
  name : String
  symbol : String
  decimals : Nat
  price : Option Rat
  volume24h : Option Rat
  marketCap : Option Rat
  image : Option String
deriving DecidableEq

/-- The fallback record of PumpFunAPI.getTokenInfo. -/
structure PlaceholderTokenInfo where
  address : String
  name : String
  symbol : String
  decimals : Nat
  supply : Nat
  note : String
deriving DecidableEq

/-- Result of getTokenInfo: Moralis metadata or the placeholder record. -/
inductive TokenInfoResult where
  | fromMoralis (data : MoralisData)
  | placeholder (info : PlaceholderTokenInfo)
deriving DecidableEq

/-- The nativePrice object of the price placeholder. -/
structure NativePrice where
  value : Option Rat
  decimals : Nat
  name : String
  symbol : String
deriving DecidableEq

/-- The fallback price record (usdPrice and value are JS null in
    PumpFunTrading.getTokenPrice, 0 in PumpFunAPI.getTokenPrice; null is
    modelled as none and 0 as some 0). -/
structure PricePlaceholder where
  address : String
  usdPrice : Option Rat
  nativePrice : NativePrice
  note : String
deriving DecidableEq

/-- Result of getTokenPrice: Moralis data or the placeholder record. -/
inductive PriceResult where
  | fromMoralis (data : MoralisData)
  | placeholder (info : PricePlaceholder)
deriving DecidableEq

/-- One entry of the graduated-tokens fallback page. -/
structure GraduatedEntry where
  tokenAddress : String
  name : String
  symbol : String
  logo : String
  decimals : String
  priceNative : String
  priceUsd : String
  liquidity : String
  fullyDilutedValuation : String
  graduatedAt : String
deriving DecidableEq

/-- The graduated-tokens fallback page of PumpFunTrading.getGraduatedTokens. -/
structure GraduatedPlaceholder where
  result : List GraduatedEntry
  note : String
deriving DecidableEq

/-- Result of getGraduatedTokens: Moralis data or the placeholder page. -/
inductive GraduatedResult where
  | fromMoralis (data : MoralisData)
  | placeholder (page : GraduatedPlaceholder)
deriving DecidableEq

/-- Return value of PumpFunTrading.buyToken on success. -/
structure BuyResult where
  success : Bool
  transactionId : String
  tokenAddress : String
  amountSol : Rat
  status : String
  explorerUrl : String
deriving DecidableEq

/-- Return value of PumpFunTrading.sellToken on success (the amount field
    keeps the number-or-string argument as given). -/
structure SellResult where
  success : Bool
  transactionId : String
  tokenAddress : String
  amount : AmountArg
  status : String
  explorerUrl : String
deriving DecidableEq

/-- TweetSchema of providers/twitter.ts. -/
structure Tweet where
  id : String
  text : String
  createdAt : String
  authorId : String
  authorName : String
  authorUsername : String
  likeCount : Nat
  retweetCount : Nat
  replyCount : Nat
deriving DecidableEq

/-- Outcomes of the external collaborators. A fixed environment fixes the
    outcome of each possible external request (HTTP endpoints, transaction
    deserialization/signing/submission, clock, RNG) and the text produced by
    the JSON.stringify builtin; the repository code is embedded faithfully on
    top of these. -/
structure ExternalEnv where
  tradePortal : TradeRequest → Except JsError (List Nat)
  deserializeTx : List Nat → Except JsError (List Nat)
  bs58Decode : String → Except JsError (List Nat)
  keypairFromSecret : List Nat → Except JsError (List Nat)
  signTx : List Nat → List Nat → Except JsError (List Nat)
  sendTransaction : List Nat → Except JsError String
  moralisMetadata : String → Except JsError MoralisData
  moralisPrice : String → Except JsError MoralisData
  moralisGraduated : Nat → Option String → Except JsError MoralisData
  nowIso : String
  nowMillis : Nat
  randomCounts : Nat → Nat × Nat × Nat
  stringifyTokens : List TokenInfo → String
  stringifyInfo : TokenInfoResult → String
  stringifyPrice : PriceResult → String
  stringifyGraduated : GraduatedResult → String
  stringifyBuy : BuyResult → String
  stringifySell : SellResult → String
  stringifyTweets : List Tweet → String
  stringifyTweet : Tweet → String

/-- State of a constructed PumpFunTrading object: the wallet keys and whether
    the optional Moralis client was initialized (both the PumpFunTrading copy
    and the PumpFunAPI copy come from the same key, so one flag models both). -/
structure TradingConfig where
  walletPublicKey : String
  walletPrivateKey : Option String
  moralisConfigured : Bool
deriving DecidableEq

/-- State of a constructed TwitterAPI object (only the posting credentials
    matter to the embedded operations). -/
structure TwitterConfig where
  accessToken : Option String
  accessTokenSecret : Option String
deriving DecidableEq

namespace PumpFunAPI

/-- PumpFunAPI.searchTokens: a mock that ignores the query and returns a fixed
    single-element list. -/
def searchTokens (query : String) : List TokenInfo :=
  let _ := query
  [{ address := "sample123456789", name := "Sample Token", symbol := "SMPL",
     decimals := 9, price := some ((1 : Rat) / 100000),
     volume24h := none, marketCap := none, image := none }]

/-- The fallback record of PumpFunAPI.getTokenInfo. -/
def fallbackInfo (tokenAddress : String) : PlaceholderTokenInfo :=
  { address := tokenAddress, name := "Unknown Token", symbol := "UNKNOWN",
    decimals := 9, supply := 0,
    note := "Limited token info available. Consider adding a Moralis API key for enhanced metadata." }

/-- PumpFunAPI.getTokenInfo: tries Moralis when configured; when Moralis is
    absent or its call throws, returns the placeholder record. The outer
    catch re-wraps errors, but no reachable path of the body throws. -/
def getTokenInfo (moralisConfigured : Bool) (env : ExternalEnv)
    (tokenAddress : String) : EffResult TokenInfoResult :=
  if moralisConfigured then
    match env.moralisMetadata tokenAddress with
    | .ok data =>
        { result := .ok (.fromMoralis data), calls := [.moralisMetadata tokenAddress] }
    | .error _ =>
        { result := .ok (.placeholder (fallbackInfo tokenAddress)),
          calls := [.moralisMetadata tokenAddress] }
  else
    { result := .ok (.placeholder (fallbackInfo tokenAddress)), calls := [] }

/-- The fallback price record of PumpFunAPI.getTokenPrice (zero prices). -/
def fallbackPriceApi (tokenAddress : String) : PricePlaceholder :=
  { address := tokenAddress, usdPrice := some 0,
    nativePrice := { value := some 0, decimals := 9, name := "Wrapped Solana", symbol := "WSOL" },
    note := "Price information not available. Consider adding a Moralis API key for real-time prices." }

/-- PumpFunAPI.getTokenPrice: tries Moralis when configured; falls back to the
    zero-price placeholder. -/
def getTokenPrice (moralisConfigured : Bool) (env : ExternalEnv)
    (tokenAddress : String) : EffResult PriceResult :=
  if moralisConfigured then
    match env.moralisPrice tokenAddress with
    | .ok data =>
        { result := .ok (.fromMoralis data), calls := [.moralisPrice tokenAddress] }
    | .error _ =>
        { result := .ok (.placeholder (fallbackPriceApi tokenAddress)),
          calls := [.moralisPrice tokenAddress] }
  else
    { result := .ok (.placeholder (fallbackPriceApi tokenAddress)), calls := [] }

/-- PumpFunAPI.generateBuyTransaction: posts the buy request (amount is a JS
    number) and returns the response bytes; any failure is re-thrown with the
    wrapping message of the catch branch. -/
def generateBuyTransaction (publicKey : String) (env : ExternalEnv)
    (tokenAddress : String) (amount : Rat) (denominatedInSol : Bool := true)
    (slippage : Rat := 1) (priorityFee : Rat := 1 / 100000)
    (pool : String := "pump") : EffResult (List Nat) :=
  let req := tradeRequest publicKey "buy" tokenAddress (.num amount)
    denominatedInSol slippage priorityFee pool
  match env.tradePortal req with
  | .ok bytes => { result := .ok bytes, calls := [.tradePortal req] }
  | .error e =>
      { result := .error { message := "Failed to generate buy transaction: " ++ e.display },
        calls := [.tradePortal req] }

/-- PumpFunAPI.generateSellTransaction: posts the sell request (amount may be
    a number or a string such as "100%", forwarded as given) and returns the
    response bytes; any failure is re-thrown with the wrapping message. -/
def generateSellTransaction (publicKey : String) (env : ExternalEnv)
    (tokenAddress : String) (amount : AmountArg) (denominatedInSol : Bool := false)
    (slippage : Rat := 1) (priorityFee : Rat := 1 / 100000)
    (pool : String := "pump") : EffResult (List Nat) :=
  let req := tradeRequest publicKey "sell" tokenAddress amount
    denominatedInSol slippage priorityFee pool
  match env.tradePortal req with
  | .ok bytes => { result := .ok bytes, calls := [.tradePortal req] }
  | .error e =>
      { result := .error { message := "Failed to generate sell transaction: " ++ e.display },
        calls := [.tradePortal req] }

end PumpFunAPI

namespace PumpFunTrading

/-- The message of the error thrown by PumpFunTrading.validateWallet. -/
def noKeyMessage : String :=
  "Wallet private key is not configured. Trading is not available."

/-- PumpFunTrading.validateWallet: throws when the private key is absent (the
    JS check is falsiness, so an empty string also fails). -/
def validateWallet (cfg : TradingConfig) : Except JsError Unit :=
  if cfg.walletPrivateKey.getD "" = "" then .error { message := noKeyMessage }
  else .ok ()

/-- PumpFunTrading.searchTokens delegates to PumpFunAPI.searchTokens. -/
def searchTokens (query : String) : List TokenInfo :=
  PumpFunAPI.searchTokens query

/-- PumpFunTrading.getTokenInfo: tries Moralis first, then falls back to
    PumpFunAPI.getTokenInfo (which tries Moralis again before the
    placeholder). -/
def getTokenInfo (cfg : TradingConfig) (env : ExternalEnv)
    (tokenAddress : String) : EffResult TokenInfoResult :=
  if cfg.moralisConfigured then
    match env.moralisMetadata tokenAddress with
    | .ok data =>
        { result := .ok (.fromMoralis data), calls := [.moralisMetadata tokenAddress] }
    | .error _ =>
        let r := PumpFunAPI.getTokenInfo cfg.moralisConfigured env tokenAddress
        { result := r.result, calls := .moralisMetadata tokenAddress :: r.calls }
  else
    PumpFunAPI.getTokenInfo cfg.moralisConfigured env tokenAddress

/-- The fallback price record of PumpFunTrading.getTokenPrice (null prices). -/
def fallbackPriceTrading (tokenAddress : String) : PricePlaceholder :=
  { address := tokenAddress, usdPrice := none,
    nativePrice := { value := none, decimals := 9, name := "Wrapped Solana", symbol := "WSOL" },
    note := "Price information not available without Moralis API key" }

/-- PumpFunTrading.getTokenPrice: tries Moralis when configured; on absence or
    failure returns the null-price placeholder. -/
def getTokenPrice (cfg : TradingConfig) (env : ExternalEnv)
    (tokenAddress : String) : EffResult PriceResult :=
  if cfg.moralisConfigured then
    match env.moralisPrice tokenAddress with
    | .ok data =>
        { result := .ok (.fromMoralis data), calls := [.moralisPrice tokenAddress] }
    | .error _ =>
        { result := .ok (.placeholder (fallbackPriceTrading tokenAddress)),
          calls := [.moralisPrice tokenAddress] }
  else
    { result := .ok (.placeholder (fallbackPriceTrading tokenAddress)), calls := [] }

/-- The placeholder page of PumpFunTrading.getGraduatedTokens (graduatedAt is
    the current time rendered by the Date builtin). -/
def graduatedPlaceholderPage (env : ExternalEnv) : GraduatedPlaceholder :=
  { result := [{ tokenAddress := "placeholder123456789", name := "Placeholder Token",
                 symbol := "PLACE", logo := "", decimals := "9",
                 priceNative := "0.000001", priceUsd := "0.00015",
                 liquidity := "10000", fullyDilutedValuation := "150000",
                 graduatedAt := env.nowIso }],
    note := "Placeholder data. For real graduated token data, please provide a valid Moralis API key." }

/-- PumpFunTrading.getGraduatedTokens: tries Moralis when configured; on
    absence or failure returns the one-entry placeholder page. -/
def getGraduatedTokens (cfg : TradingConfig) (env : ExternalEnv)
    (limit : Nat := 100) (cursor : Option String := none) :
    EffResult GraduatedResult :=
  if cfg.moralisConfigured then
    match env.moralisGraduated limit cursor with
    | .ok data =>
        { result := .ok (.fromMoralis data), calls := [.moralisGraduated limit cursor] }
    | .error _ =>
        { result := .ok (.placeholder (graduatedPlaceholderPage env)),
          calls := [.moralisGraduated limit cursor] }
  else
    { result := .ok (.placeholder (graduatedPlaceholderPage env)), calls := [] }

/-- PumpFunTrading.buyToken: validate the wallet, request the unsigned
    transaction (SOL-denominated), deserialize it, sign with the keypair
    recovered from the bs58-decoded private key, submit, and return the
    success record; every thrown error is re-wrapped by the catch branch with
    a "Failed to buy token" message. -/
def buyToken (cfg : TradingConfig) (env : ExternalEnv) (tokenAddress : String)
    (amount : Rat) (slippage : Rat := 1) (priorityFee : Rat := 1 / 100000)
    (pool : String := "pump") : EffResult BuyResult :=
  let wrap : JsError → JsError :=
    fun e => { message := "Failed to buy token: " ++ e.display }
  match validateWallet cfg with
  | .error e => { result := .error (wrap e), calls := [] }
  | .ok _ =>
    let gen := PumpFunAPI.generateBuyTransaction cfg.walletPublicKey env
      tokenAddress amount true slippage priorityFee pool
    match gen.result with
    | .error e => { result := .error (wrap e), calls := gen.calls }
    | .ok bytes =>
      match env.deserializeTx bytes with
      | .error e => { result := .error (wrap e), calls := gen.calls }
      | .ok tx =>
        match env.bs58Decode (cfg.walletPrivateKey.getD "") with
        | .error e => { result := .error (wrap e), calls := gen.calls }
        | .ok secret =>
          match env.keypairFromSecret secret with
          | .error e => { result := .error (wrap e), calls := gen.calls }
          | .ok keypair =>
            match env.signTx tx keypair with
            | .error e => { result := .error (wrap e), calls := gen.calls }
            | .ok signed =>
              match env.sendTransaction signed with
              | .error e =>
                  { result := .error (wrap e), calls := gen.calls ++ [.rpcSendTransaction] }
              | .ok signature =>
                  { result := .ok { success := true, transactionId := signature,
                                    tokenAddress := tokenAddress, amountSol := amount,
                                    status := "sent",
                                    explorerUrl := "https://solscan.io/tx/" ++ signature },
                    calls := gen.calls ++ [.rpcSendTransaction] }

/-- PumpFunTrading.sellToken: identical control flow to buyToken, with the
    amount forwarded as given (number or string), token-denominated, and the
    "Failed to sell token" wrapping message. -/
def sellToken (cfg : TradingConfig) (env : ExternalEnv) (tokenAddress : String)
    (amount : AmountArg) (slippage : Rat := 1) (priorityFee : Rat := 1 / 100000)
    (pool : String := "pump") : EffResult SellResult :=
  let wrap : JsError → JsError :=
    fun e => { message := "Failed to sell token: " ++ e.display }
  match validateWallet cfg with
  | .error e => { result := .error (wrap e), calls := [] }
  | .ok _ =>
    let gen := PumpFunAPI.generateSellTransaction cfg.walletPublicKey env
      tokenAddress amount false slippage priorityFee pool
    match gen.result with
    | .error e => { result := .error (wrap e), calls := gen.calls }
    | .ok bytes =>
      match env.deserializeTx bytes with
      | .error e => { result := .error (wrap e), calls := gen.calls }
      | .ok tx =>
        match env.bs58Decode (cfg.walletPrivateKey.getD "") with
        | .error e => { result := .error (wrap e), calls := gen.calls }
        | .ok secret =>
          match env.keypairFromSecret secret with
          | .error e => { result := .error (wrap e), calls := gen.calls }
          | .ok keypair =>
            match env.signTx tx keypair with
            | .error e => { result := .error (wrap e), calls := gen.calls }
            | .ok signed =>
              match env.sendTransaction signed with
              | .error e =>
                  { result := .error (wrap e), calls := gen.calls ++ [.rpcSendTransaction] }
              | .ok signature =>
                  { result := .ok { success := true, transactionId := signature,
                                    tokenAddress := tokenAddress, amount := amount,
                                    status := "sent",
                                    explorerUrl := "https://solscan.io/tx/" ++ signature },
                    calls := gen.calls ++ [.rpcSendTransaction] }

end PumpFunTrading

namespace TwitterAPI

/-- TwitterAPI.searchTweets: the mock builds count synthetic tweets from the
    clock and RNG builtins. -/
def searchTweets (env : ExternalEnv) (query : String) (count : Nat := 10) :
    List Tweet :=
  (List.range count).map fun i =>
    let counts := env.randomCounts i
    { id := "tweet_" ++ toString i ++ "_" ++ toString env.nowMillis,
      text := "This is a sample tweet about " ++ query ++ " #" ++ toString i,
      createdAt := env.nowIso, authorId := "user123", authorName := "Sample User",
      authorUsername := "sampleuser",
      likeCount := counts.1, retweetCount := counts.2.1, replyCount := counts.2.2 }

/-- TwitterAPI.postTweet: throws when either access credential is falsy,
    otherwise returns the synthetic created tweet. -/
def postTweet (tw : TwitterConfig) (env : ExternalEnv) (text : String) :
    Except JsError Tweet :=
  if tw.accessToken.getD "" = "" ∨ tw.accessTokenSecret.getD "" = "" then
    .error { message := "Access tokens not set. Cannot post tweet." }
  else
    .ok { id := "tweet_" ++ toString env.nowMillis, text := text,
          createdAt := env.nowIso, authorId := "user123",
          authorName := "Sample User", authorUsername := "sampleuser",
          likeCount := 0, retweetCount := 0, replyCount := 0 }

end TwitterAPI

/-- One content block of a tool result ({type, text} in the source). -/
structure ContentBlock where
  kind : String
  payload : String
deriving DecidableEq

/-- The uniform result envelope every handler returns. -/
structure ToolResult where
  content : List ContentBlock
  isError : Bool
deriving DecidableEq

/-- The success envelope built by the handlers of server.ts. -/
def okResult (text : String) : ToolResult :=
  { content := [{ kind := "text", payload := text }], isError := false }

/-- The error envelope built by the catch branch of each handler: a fixed
    per-tool diagnostic text followed by the message of the caught error. -/
def errResult (diagnostic : String) (e : JsError) : ToolResult :=
  { content := [{ kind := "text", payload := diagnostic ++ e.message }],
    isError := true }

/-- The try/catch boundary shared by every handler of server.ts: a successful
    body is rendered as a success envelope, a thrown error becomes an error
    envelope. -/
def renderOutcome {α : Type} (render : α → String) (diagnostic : String) :
    Except JsError α → ToolResult
  | .ok v => okResult (render v)
  | .error e => errResult diagnostic e

/-- One tool invocation with its schema-validated arguments; optional fields
    the caller omitted are none and are defaulted inside the handler. -/
inductive Invocation where
  | searchTokens (query : String)
  | getTrendingTokens
  | getTokenInfo (address : String)
  | getTokenPrice (address : String)
  | buyToken (address : String) (solAmount : Rat)
      (slippage : Option Rat) (priorityFee : Option Rat) (pool : Option String)
  | sellToken (address : String) (tokenAmount : String)
      (slippage : Option Rat) (priorityFee : Option Rat) (pool : Option String)
  | searchTweets (query : String) (count : Option Nat)
  | postTweet (text : String)
deriving DecidableEq

/-- The TypeError the JS runtime throws when the get_trending_tokens handler
    calls pumpFunTrading.getTrendingTokens(), a method the PumpFunTrading
    class does not define in any revision. -/
def trendingTypeError : JsError :=
  { message := "pumpFunTrading.getTrendingTokens is not a function" }

/-- The tool handlers registered in src/server.ts. Every handler body sits in
    a try/catch whose catch branch returns an error envelope; the outer Except
    layer is where an exception escaping a handler would surface, and the
    list collects the network requests the handler issued. -/
def handleInvocation (cfg : TradingConfig) (tw : TwitterConfig)
    (env : ExternalEnv) : Invocation → Except JsError ToolResult × List NetCall
  | .searchTokens query =>
      (.ok (okResult (env.stringifyTokens (PumpFunTrading.searchTokens query))), [])
  | .getTrendingTokens =>
      (.ok (errResult "Error fetching trending tokens: " trendingTypeError), [])
  | .getTokenInfo address =>
      let r := PumpFunTrading.getTokenInfo cfg env address
      (.ok (renderOutcome env.stringifyInfo "Error fetching token info: " r.result),
       r.calls)
  | .getTokenPrice address =>
      let r := PumpFunTrading.getTokenPrice cfg env address
      (.ok (renderOutcome env.stringifyPrice "Error fetching token price: " r.result),
       r.calls)
  | .buyToken address solAmount slippage priorityFee pool =>
      let r := PumpFunTrading.buyToken cfg env address solAmount
        (slippage.getD 1) (priorityFee.getD (1 / 100000)) (pool.getD "pump")
      (.ok (renderOutcome
              (fun t => "Transaction initiated: " ++ env.stringifyBuy t)
              "Error buying token: " r.result),
       r.calls)
  | .sellToken address tokenAmount slippage priorityFee pool =>
      let r := PumpFunTrading.sellToken cfg env address (.str tokenAmount)
        (slippage.getD 1) (priorityFee.getD (1 / 100000)) (pool.getD "pump")
      (.ok (renderOutcome
              (fun t => "Transaction initiated: " ++ env.stringifySell t)
              "Error selling token: " r.result),
       r.calls)
  | .searchTweets query count =>
      (.ok (okResult (env.stringifyTweets
              (TwitterAPI.searchTweets env query (count.getD 10)))), [])
  | .postTweet text =>
      (.ok (renderOutcome
              (fun t => "Tweet posted successfully: " ++ env.stringifyTweet t)
              "Error posting tweet: " (TwitterAPI.postTweet tw env text)), [])

/-- The per-tool diagnostic text of each catch branch of server.ts. -/
def errDiagnosticFor : Invocation → String
  | .searchTokens _ => "Error searching tokens: "
  | .getTrendingTokens => "Error fetching trending tokens: "
  | .getTokenInfo _ => "Error fetching token info: "
  | .getTokenPrice _ => "Error fetching token price: "
  | .buyToken _ _ _ _ _ => "Error buying token: "
  | .sellToken _ _ _ _ _ => "Error selling token: "
  | .searchTweets _ _ => "Error searching tweets: "
  | .postTweet _ => "Error posting tweet: "

/-- The fields of process.env read by utils/config. -/
structure EnvMap where
  SERVER_NAME : Option String
  SERVER_VERSION : Option String
  WALLET_PUBLIC_KEY : Option String
  WALLET_PRIVATE_KEY : Option String
  SOLANA_RPC_ENDPOINT : Option String
  PUMPFUN_API_ENDPOINT : Option String
  TWITTER_API_KEY : Option String
  TWITTER_API_KEY_SECRET : Option String
  TWITTER_ACCESS_TOKEN : Option String
  TWITTER_ACCESS_TOKEN_SECRET : Option String
  MORALIS_API_KEY : Option String
deriving DecidableEq

/-- The parsed configuration object of utils/config. -/
structure Config where
  SERVER_NAME : String
  SERVER_VERSION : String
  WALLET_PUBLIC_KEY : String
  WALLET_PRIVATE_KEY : Option String
  SOLANA_RPC_ENDPOINT : String
  PUMPFUN_API_ENDPOINT : String
  TWITTER_API_KEY : Option String
  TWITTER_API_KEY_SECRET : Option String
  TWITTER_ACCESS_TOKEN : Option String
  TWITTER_ACCESS_TOKEN_SECRET : Option String
  MORALIS_API_KEY : Option String
deriving DecidableEq

/-- ConfigSchema applied to an environment that contains a wallet public key:
    defaulted fields take their declared defaults when absent. -/
def applySchema (e : EnvMap) (pk : String) : Config :=
  { SERVER_NAME := e.SERVER_NAME.getD "agentlink-mcp",
    SERVER_VERSION := e.SERVER_VERSION.getD "1.0.0",
    WALLET_PUBLIC_KEY := pk,
    WALLET_PRIVATE_KEY := e.WALLET_PRIVATE_KEY,
    SOLANA_RPC_ENDPOINT := e.SOLANA_RPC_ENDPOINT.getD "https://api.mainnet-beta.solana.com",
    PUMPFUN_API_ENDPOINT := e.PUMPFUN_API_ENDPOINT.getD "https://pumpportal.fun/api/trade-local",
    TWITTER_API_KEY := e.TWITTER_API_KEY,
    TWITTER_API_KEY_SECRET := e.TWITTER_API_KEY_SECRET,
    TWITTER_ACCESS_TOKEN := e.TWITTER_ACCESS_TOKEN,
    TWITTER_ACCESS_TOKEN_SECRET := e.TWITTER_ACCESS_TOKEN_SECRET,
    MORALIS_API_KEY := e.MORALIS_API_KEY }

/-- The configuration produced by the safeParse failure branch of parseConfig:
    ConfigSchema.parse over the literal object whose only field is
    WALLET_PUBLIC_KEY set to 'DUMMY_KEY'. -/
def dummyConfig : Config :=
  { SERVER_NAME := "agentlink-mcp", SERVER_VERSION := "1.0.0",
    WALLET_PUBLIC_KEY := "DUMMY_KEY", WALLET_PRIVATE_KEY := none,
    SOLANA_RPC_ENDPOINT := "https://api.mainnet-beta.solana.com",
    PUMPFUN_API_ENDPOINT := "https://pumpportal.fun/api/trade-local",
    TWITTER_API_KEY := none, TWITTER_API_KEY_SECRET := none,
    TWITTER_ACCESS_TOKEN := none, TWITTER_ACCESS_TOKEN_SECRET := none,
    MORALIS_API_KEY := none }

/-- parseConfig of utils/config: safeParse fails exactly when
    WALLET_PUBLIC_KEY is absent, in which case the code logs the failure and
    re-parses the DUMMY_KEY literal instead of failing. -/
def parseConfig (e : EnvMap) : Config :=
  match e.WALLET_PUBLIC_KEY with
  | some pk => applySchema e pk
  | none => dummyConfig

/-- Observable outcome of main() in server.ts: either the server reaches the
    transport-connected state, or the startup catch branch calls
    process.exit(1). -/
inductive StartupOutcome where
  | started (cfg : Config) (twitterEnabled : Bool)
  | exited (code : Nat)
deriving DecidableEq

/-- main() of server.ts up to connecting the transport: with a parsed config
    the only reachable throwing step is the PumpFunTrading constructor, which
    throws exactly when the wallet public key is falsy; the catch branch exits
    with code 1. Twitter tools are registered only when both app credentials
    are truthy. -/
def startup (e : EnvMap) : StartupOutcome :=
  let cfg := parseConfig e
  if cfg.WALLET_PUBLIC_KEY = "" then .exited 1
  else
    .started cfg
      (decide (cfg.TWITTER_API_KEY.getD "" ≠ "" ∧ cfg.TWITTER_API_KEY_SECRET.getD "" ≠ ""))

/-- The process environment with every configuration variable unset. -/
def emptyEnv : EnvMap :=
  { SERVER_NAME := none, SERVER_VERSION := none, WALLET_PUBLIC_KEY := none,
    WALLET_PRIVATE_KEY := none, SOLANA_RPC_ENDPOINT := none,
    PUMPFUN_API_ENDPOINT := none, TWITTER_API_KEY := none,
    TWITTER_API_KEY_SECRET := none, TWITTER_ACCESS_TOKEN := none,
    TWITTER_ACCESS_TOKEN_SECRET := none, MORALIS_API_KEY := none }

/-- JS whitespace characters stripped by String.prototype.trim (the subset
    that matters for byte chunks). -/
def isJsWhitespace (ch : Char) : Bool :=
  ch == ' ' || ch == '\t' || ch == '\n' || ch == '\r'

/-- String.prototype.trim over the character sequence. -/
def jsTrim (s : String) : String :=
  ⟨((s.toList.dropWhile isJsWhitespace).reverse.dropWhile isJsWhitespace).reverse⟩

/-- JS String.prototype.includes realized over character lists. -/
def listIncludes (needle : List Char) : List Char → Bool
  | [] => needle.isEmpty
  | c :: rest => needle.isPrefixOf (c :: rest) || listIncludes needle rest

/-- JS String.prototype.includes. -/
def jsIncludes (hay needle : String) : Bool :=
  listIncludes needle.toList hay.toList

/-- The compact JSON-RPC 2.0 marker the wrapper script looks for. -/
def jsonRpcMarkerA : String := "\"jsonrpc\":\"2.0\""

/-- The spaced JSON-RPC 2.0 marker the wrapper script looks for. -/
def jsonRpcMarkerB : String := "\"jsonrpc\": \"2.0\""

/-- Whether a string contains either JSON-RPC 2.0 marker. -/
def hasJsonRpcMarker (s : String) : Bool :=
  jsIncludes s jsonRpcMarkerA || jsIncludes s jsonRpcMarkerB

/-- Destination of one chunk of wrapped-server output. -/
inductive OutChannel where
  | primary
  | diagnostic
deriving DecidableEq

/-- The stdout filter of the startup wrapper script: trim the chunk, forward
    the original chunk to stdout when the trimmed text contains a JSON-RPC
    2.0 marker, otherwise log a diagnostic line to stderr. -/
def routeChunk (data : String) : OutChannel :=
  let output := jsTrim data
  if jsIncludes output jsonRpcMarkerA || jsIncludes output jsonRpcMarkerB then
    .primary
  else
    .diagnostic

/-- A concrete environment for witnesses: every trading-pipeline step
    succeeds, the Moralis endpoints fail, and the builtins return fixed
    values. -/
def envW : ExternalEnv :=
  { tradePortal := fun _ => .ok [1, 2, 3],
    deserializeTx := fun bytes => .ok bytes,
    bs58Decode := fun _ => .ok [7],
    keypairFromSecret := fun secret => .ok secret,
    signTx := fun tx _ => .ok tx,
    sendTransaction := fun _ => .ok "SIG",
    moralisMetadata := fun _ => .error { message := "Moralis down" },
    moralisPrice := fun _ => .error { message := "Moralis down" },
    moralisGraduated := fun _ _ => .error { message := "Moralis down" },
    nowIso := "2025-01-01T00:00:00.000Z",
    nowMillis := 0,
    randomCounts := fun _ => (0, 0, 0),
    stringifyTokens := fun _ => "", stringifyInfo := fun _ => "",
    stringifyPrice := fun _ => "", stringifyGraduated := fun _ => "",
    stringifyBuy := fun _ => "", stringifySell := fun _ => "",
    stringifyTweets := fun _ => "", stringifyTweet := fun _ => "" }

/-- A trading configuration with no private key and no Moralis client. -/
def cfgNoKey : TradingConfig :=
  { walletPublicKey := "PUB", walletPrivateKey := none, moralisConfigured := false }

/-- A trading configuration with a private key and no Moralis client. -/
def cfgWithKey : TradingConfig :=
  { walletPublicKey := "PUB", walletPrivateKey := some "KEY", moralisConfigured := false }

/-- A Twitter configuration with no posting credentials. -/
def twNone : TwitterConfig := { accessToken := none, accessTokenSecret := none }

/-- C10: searchTokens ignores its query entirely: any two queries yield the
    identical fixed one-element list containing the sample token with price
    0.00001 (1/100000). -/
theorem C10_search_constant (q1 q2 : String) :
    PumpFunAPI.searchTokens q1 = PumpFunAPI.searchTokens q2 ∧
    PumpFunAPI.searchTokens q1 =
      [{ address := "sample123456789", name := "Sample Token", symbol := "SMPL",
         decimals := 9, price := some ((1 : Rat) / 100000),
         volume24h := none, marketCap := none, image := none }] :=
  ⟨rfl, rfl⟩

/-- C8 is violated by the code: with WALLET_PUBLIC_KEY absent from the
    process environment, parseConfig substitutes the truthy placeholder
    "DUMMY_KEY" (despite the comment promising an error later), the
    PumpFunTrading constructor check passes and startup completes, so the
    process does not exit with code 1 and the server serves invocations. -/
theorem C8_missing_key_not_fatal :
    parseConfig emptyEnv = dummyConfig ∧
    dummyConfig.WALLET_PUBLIC_KEY = "DUMMY_KEY" ∧
    startup emptyEnv = .started dummyConfig false ∧
    startup emptyEnv ≠ .exited 1 := by
  refine ⟨rfl, rfl, by decide, by decide⟩

/-- C2: for every registered tool and every input and environment, the
    handler produces exactly one ToolResult; no exception thrown by the
    underlying operation escapes the handler boundary (the outer Except layer
    never carries an error). -/
theorem C2_no_escape (cfg : TradingConfig) (tw : TwitterConfig)
    (env : ExternalEnv) (inv : Invocation) :
    ∃ r : ToolResult, (handleInvocation cfg tw env inv).1 = .ok r := by
  cases inv <;> exact ⟨_, rfl⟩

/-- C5: when no Moralis provider is configured, or its call fails,
    getTokenInfo returns without throwing the minimal Unknown-Token record
    (the source record also carries supply 0) and getTokenPrice returns the
    null-price placeholder with an explanatory note. -/
theorem C5_info_price_fallback (cfg : TradingConfig) (env : ExternalEnv)
    (address : String)
    (hinfo : cfg.moralisConfigured = false ∨
      ∃ e, env.moralisMetadata address = .error e)
    (hprice : cfg.moralisConfigured = false ∨
      ∃ e, env.moralisPrice address = .error e) :
    (PumpFunTrading.getTokenInfo cfg env address).result =
      .ok (.placeholder
            { address := address, name := "Unknown Token", symbol := "UNKNOWN",
              decimals := 9, supply := 0,
              note := "Limited token info available. Consider adding a Moralis API key for enhanced metadata." }) ∧
    (PumpFunTrading.getTokenPrice cfg env address).result =
      .ok (.placeholder
            { address := address, usdPrice := none,
              nativePrice := { value := none, decimals := 9,
                               name := "Wrapped Solana", symbol := "WSOL" },
              note := "Price information not available without Moralis API key" }) := by
  constructor
  · rcases hinfo with h | ⟨e, he⟩
    · simp [PumpFunTrading.getTokenInfo, PumpFunAPI.getTokenInfo,
        PumpFunAPI.fallbackInfo, h]
    · cases hm : cfg.moralisConfigured with
      | false =>
          simp [PumpFunTrading.getTokenInfo, PumpFunAPI.getTokenInfo,
            PumpFunAPI.fallbackInfo, hm]
      | true =>
          simp [PumpFunTrading.getTokenInfo, PumpFunAPI.getTokenInfo,
            PumpFunAPI.fallbackInfo, hm, he]
  · rcases hprice with h | ⟨e, he⟩
    · simp [PumpFunTrading.getTokenPrice, PumpFunTrading.fallbackPriceTrading, h]
    · cases hm : cfg.moralisConfigured with
      | false =>
          simp [PumpFunTrading.getTokenPrice, PumpFunTrading.fallbackPriceTrading, hm]
      | true =>
          simp [PumpFunTrading.getTokenPrice, PumpFunTrading.fallbackPriceTrading, hm, he]

/-- Witness for C5 at a configuration with no Moralis client. -/
theorem C5_witness :
    cfgNoKey.moralisConfigured = false ∧
    (PumpFunTrading.getTokenInfo cfgNoKey envW "A").result =
      .ok (.placeholder
            { address := "A", name := "Unknown Token", symbol := "UNKNOWN",
              decimals := 9, supply := 0,
              note := "Limited token info available. Consider adding a Moralis API key for enhanced metadata." }) ∧
    (PumpFunTrading.getTokenPrice cfgNoKey envW "A").result =
      .ok (.placeholder
            { address := "A", usdPrice := none,
              nativePrice := { value := none, decimals := 9,
                               name := "Wrapped Solana", symbol := "WSOL" },
              note := "Price information not available without Moralis API key" }) := by
  refine ⟨rfl, ?_, ?_⟩
  · exact (C5_info_price_fallback cfgNoKey envW "A" (Or.inl rfl) (Or.inl rfl)).1
  · exact (C5_info_price_fallback cfgNoKey envW "A" (Or.inl rfl) (Or.inl rfl)).2

/-- C6: when the Moralis provider is absent or its call fails,
    getGraduatedTokens returns without throwing the placeholder page with
    exactly one synthetic entry and the degraded-mode note. -/
theorem C6_graduated_fallback (cfg : TradingConfig) (env : ExternalEnv)
    (limit : Nat) (cursor : Option String)
    (h : cfg.moralisConfigured = false ∨
      ∃ e, env.moralisGraduated limit cursor = .error e) :
    (PumpFunTrading.getGraduatedTokens cfg env limit cursor).result =
      .ok (.placeholder (PumpFunTrading.graduatedPlaceholderPage env)) ∧
    (PumpFunTrading.graduatedPlaceholderPage env).result.length = 1 ∧
    (PumpFunTrading.graduatedPlaceholderPage env).note =
      "Placeholder data. For real graduated token data, please provide a valid Moralis API key." := by
  refine ⟨?_, rfl, rfl⟩
  rcases h with h | ⟨e, he⟩
  · simp [PumpFunTrading.getGraduatedTokens, h]
  · cases hm : cfg.moralisConfigured with
    | false => simp [PumpFunTrading.getGraduatedTokens, hm]
    | true => simp [PumpFunTrading.getGraduatedTokens, hm, he]

/-- Witness for C6 at a configuration with no Moralis client. -/
theorem C6_witness :
    cfgNoKey.moralisConfigured = false ∧
    (PumpFunTrading.getGraduatedTokens cfgNoKey envW 100 none).result =
      .ok (.placeholder (PumpFunTrading.graduatedPlaceholderPage envW)) ∧
    (PumpFunTrading.graduatedPlaceholderPage envW).result.length = 1 := by
  refine ⟨rfl, (C6_graduated_fallback cfgNoKey envW 100 none (Or.inl rfl)).1,
    (C6_graduated_fallback cfgNoKey envW 100 none (Or.inl rfl)).2.1⟩

/-- C1 fails as stated: with no private key configured the buy_token handler
    does return an error envelope with no network call, but its text payload
    is the doubly wrapped diagnostic, not exactly
    "Error: Wallet private key is not configured. Trading is not available.". -/
theorem C1_counterexample :
    handleInvocation cfgNoKey twNone envW (.buyToken "A" 1 none none none) =
      (.ok { content :=
               [{ kind := "text",
                  payload := "Error buying token: Failed to buy token: Error: Wallet private key is not configured. Trading is not available." }],
             isError := true }, []) ∧
    "Error buying token: Failed to buy token: Error: Wallet private key is not configured. Trading is not available." ≠
      "Error: Wallet private key is not configured. Trading is not available." := by
  exact ⟨rfl, by decide⟩

/-- C1 (amended): with no private key configured, buy_token and sell_token
    return error envelopes whose exact payload is the per-tool diagnostic
    wrapped around the re-thrown validateWallet message, and no network call
    to the trading-data provider or the blockchain is attempted (the call
    list is empty). -/
theorem C1_no_key_no_network (cfg : TradingConfig) (tw : TwitterConfig)
    (env : ExternalEnv) (address tokenAmount : String) (solAmount : Rat)
    (slippage priorityFee : Option Rat) (pool : Option String)
    (h : cfg.walletPrivateKey.getD "" = "") :
    handleInvocation cfg tw env
        (.buyToken address solAmount slippage priorityFee pool) =
      (.ok { content :=
               [{ kind := "text",
                  payload := "Error buying token: Failed to buy token: Error: Wallet private key is not configured. Trading is not available." }],
             isError := true }, []) ∧
    handleInvocation cfg tw env
        (.sellToken address tokenAmount slippage priorityFee pool) =
      (.ok { content :=
               [{ kind := "text",
                  payload := "Error selling token: Failed to sell token: Error: Wallet private key is not configured. Trading is not available." }],
             isError := true }, []) := by
  constructor <;>
    simp [handleInvocation, PumpFunTrading.buyToken, PumpFunTrading.sellToken,
      PumpFunTrading.validateWallet, PumpFunTrading.noKeyMessage, h,
      renderOutcome, errResult, JsError.display]

/-- Witness for C1 at the no-key configuration. -/
theorem C1_witness :
    cfgNoKey.walletPrivateKey.getD "" = "" ∧
    handleInvocation cfgNoKey twNone envW (.sellToken "A" "100%" none none none) =
      (.ok { content :=
               [{ kind := "text",
                  payload := "Error selling token: Failed to sell token: Error: Wallet private key is not configured. Trading is not available." }],
             isError := true }, []) := by
  exact ⟨rfl,
    (C1_no_key_no_network cfgNoKey twNone envW "A" "100%" 1 none none none rfl).2⟩

/-- C3: with a configured (truthy) signing key and all four pipeline steps
    succeeding, buyToken returns exactly the success record with status
    "sent" and the solscan explorer link for the signature, and the one
    provider request it sent is denominated in SOL. -/
theorem C3_buy_success (cfg : TradingConfig) (env : ExternalEnv)
    (tokenAddress key signature : String) (amount slippage priorityFee : Rat)
    (pool : String) (bytes tx secret keypair signed : List Nat)
    (hkey : cfg.walletPrivateKey = some key) (hkey0 : key ≠ "")
    (hgen : env.tradePortal (tradeRequest cfg.walletPublicKey "buy" tokenAddress
      (.num amount) true slippage priorityFee pool) = .ok bytes)
    (hdeser : env.deserializeTx bytes = .ok tx)
    (hdecode : env.bs58Decode key = .ok secret)
    (hkeypair : env.keypairFromSecret secret = .ok keypair)
    (hsign : env.signTx tx keypair = .ok signed)
    (hsend : env.sendTransaction signed = .ok signature) :
    PumpFunTrading.buyToken cfg env tokenAddress amount slippage priorityFee pool =
      { result := .ok { success := true, transactionId := signature,
                        tokenAddress := tokenAddress, amountSol := amount,
                        status := "sent",
                        explorerUrl := "https://solscan.io/tx/" ++ signature },
        calls := [.tradePortal (tradeRequest cfg.walletPublicKey "buy"
                    tokenAddress (.num amount) true slippage priorityFee pool),
                  .rpcSendTransaction] } ∧
    (tradeRequest cfg.walletPublicKey "buy" tokenAddress (.num amount) true
        slippage priorityFee pool).denominatedInSol = "true" := by
  refine ⟨?_, rfl⟩
  simp [PumpFunTrading.buyToken, PumpFunTrading.validateWallet,
    PumpFunAPI.generateBuyTransaction, hkey, hkey0, hgen, hdeser, hdecode,
    hkeypair, hsign, hsend]

/-- Witness for C3: the all-success environment. -/
theorem C3_witness :
    cfgWithKey.walletPrivateKey = some "KEY" ∧
    envW.sendTransaction [1, 2, 3] = .ok "SIG" ∧
    (PumpFunTrading.buyToken cfgWithKey envW "A" 1 1 (1 / 100000) "pump" =
      { result := .ok { success := true, transactionId := "SIG",
                        tokenAddress := "A", amountSol := 1, status := "sent",
                        explorerUrl := "https://solscan.io/tx/" ++ "SIG" },
        calls := [.tradePortal (tradeRequest cfgWithKey.walletPublicKey "buy"
                    "A" (.num 1) true 1 (1 / 100000) "pump"),
                  .rpcSendTransaction] } ∧
     (tradeRequest cfgWithKey.walletPublicKey "buy" "A" (.num 1) true 1
        (1 / 100000) "pump").denominatedInSol = "true") := by
  refine ⟨rfl, rfl, ?_⟩
  exact C3_buy_success cfgWithKey envW "A" "KEY" "SIG" 1 1 (1 / 100000) "pump"
    [1, 2, 3] [1, 2, 3] [7] [7] [1, 2, 3] rfl (by decide) rfl rfl rfl rfl rfl rfl

/-- With a truthy private key, sellToken always issues the provider request
    first, so its call list starts with the trade-portal request built from
    its arguments. -/
theorem sellToken_calls_head (cfg : TradingConfig) (env : ExternalEnv)
    (tokenAddress : String) (amount : AmountArg) (slippage priorityFee : Rat)
    (pool : String) (h : cfg.walletPrivateKey.getD "" ≠ "") :
    ∃ rest,
      (PumpFunTrading.sellToken cfg env tokenAddress amount slippage priorityFee pool).calls =
        NetCall.tradePortal (tradeRequest cfg.walletPublicKey "sell"
          tokenAddress amount false slippage priorityFee pool) :: rest := by
  have hval : PumpFunTrading.validateWallet cfg = .ok () := by
    unfold PumpFunTrading.validateWallet
    exact if_neg h
  simp only [PumpFunTrading.sellToken, hval, PumpFunAPI.generateSellTransaction]
  cases h1 : env.tradePortal (tradeRequest cfg.walletPublicKey "sell"
      tokenAddress amount false slippage priorityFee pool) with
  | error e => simp [h1]
  | ok bytes =>
      simp only [h1]
      cases h2 : env.deserializeTx bytes with
      | error e => simp [h2]
      | ok tx =>
          simp only [h2]
          cases h3 : env.bs58Decode (cfg.walletPrivateKey.getD "") with
          | error e => simp [h3]
          | ok secret =>
              simp only [h3]
              cases h4 : env.keypairFromSecret secret with
              | error e => simp [h4]
              | ok keypair =>
                  simp only [h4]
                  cases h5 : env.signTx tx keypair with
                  | error e => simp [h5]
                  | ok signed =>
                      simp only [h5]
                      cases h6 : env.sendTransaction signed with
                      | error e => simp [h6]
                      | ok signature => simp [h6]

/-- C4: the sell_token handler passes the tokenAmount string through
    unmodified into the amount field of the provider request (no local
    percentage resolution), and that request is token-denominated
    (denominatedInSol serialized as "false"). -/
theorem C4_sell_passthrough (cfg : TradingConfig) (tw : TwitterConfig)
    (env : ExternalEnv) (address tokenAmount : String)
    (slippage priorityFee : Option Rat) (pool : Option String)
    (h : cfg.walletPrivateKey.getD "" ≠ "") :
    (∃ rest,
      (handleInvocation cfg tw env
          (.sellToken address tokenAmount slippage priorityFee pool)).2 =
        NetCall.tradePortal (tradeRequest cfg.walletPublicKey "sell" address
          (.str tokenAmount) false (slippage.getD 1)
          (priorityFee.getD (1 / 100000)) (pool.getD "pump")) :: rest) ∧
    (tradeRequest cfg.walletPublicKey "sell" address (.str tokenAmount) false
        (slippage.getD 1) (priorityFee.getD (1 / 100000))
        (pool.getD "pump")).amount = AmountArg.str tokenAmount ∧
    (tradeRequest cfg.walletPublicKey "sell" address (.str tokenAmount) false
        (slippage.getD 1) (priorityFee.getD (1 / 100000))
        (pool.getD "pump")).denominatedInSol = "false" := by
  refine ⟨?_, rfl, rfl⟩
  exact sellToken_calls_head cfg env address (.str tokenAmount)
    (slippage.getD 1) (priorityFee.getD (1 / 100000)) (pool.getD "pump") h

/-- Witness for C4: tokenAmount "100%" with all optionals omitted. -/
theorem C4_witness :
    cfgWithKey.walletPrivateKey.getD "" ≠ "" ∧
    (handleInvocation cfgWithKey twNone envW
        (.sellToken "A" "100%" none none none)).2 =
      [NetCall.tradePortal (tradeRequest cfgWithKey.walletPublicKey "sell" "A"
          (AmountArg.str "100%") false 1 (1 / 100000) "pump"),
       NetCall.rpcSendTransaction] ∧
    (tradeRequest cfgWithKey.walletPublicKey "sell" "A" (AmountArg.str "100%")
        false 1 (1 / 100000) "pump").amount = AmountArg.str "100%" := by
  refine ⟨by decide, by rfl, ?_⟩
  exact (C4_sell_passthrough cfgWithKey twNone envW "A" "100%" none none none
    (by decide)).2.1

/-- When a rendered handler outcome carries the error flag, it is exactly the
    error envelope for the diagnostic text of that handler. -/
theorem renderOutcome_error {α : Type} (render : α → String) (diagnostic : String)
    (x : Except JsError α)
    (hx : (renderOutcome render diagnostic x).isError = true) :
    ∃ e, renderOutcome render diagnostic x = errResult diagnostic e := by
  cases x with
  | ok v => simp [renderOutcome, okResult] at hx
  | error e => exact ⟨e, rfl⟩

/-- C7 fails as stated: the failing buy_token invocation yields a payload
    that begins with the per-tool diagnostic "Error buying token: ", which is
    not the prefix "Error:". -/
theorem C7_counterexample :
    (handleInvocation cfgNoKey twNone envW (.buyToken "A" 1 none none none)).1 =
      .ok (errResult "Error buying token: "
        { message := "Failed to buy token: Error: Wallet private key is not configured. Trading is not available." }) ∧
    (errResult "Error buying token: "
      { message := "Failed to buy token: Error: Wallet private key is not configured. Trading is not available." }).isError = true ∧
    List.isPrefixOf "Error:".toList
      ((errResult "Error buying token: "
        { message := "Failed to buy token: Error: Wallet private key is not configured. Trading is not available." }).content.headD
          { kind := "text", payload := "" }).payload.toList = false := by
  refine ⟨by rfl, rfl, by decide⟩

/-- Every per-tool diagnostic text of server.ts begins with "Error". -/
theorem errDiagnostic_starts (inv : Invocation) :
    List.isPrefixOf "Error".toList (errDiagnosticFor inv).toList = true := by
  cases inv <;> (simp only [errDiagnosticFor]; decide)

/-- C7 (amended): every failing invocation returns a text payload that is a
    fixed per-tool diagnostic, itself prefixed with "Error", followed by the
    underlying cause's message and nothing else. -/
theorem C7_error_text_shape (cfg : TradingConfig) (tw : TwitterConfig)
    (env : ExternalEnv) (inv : Invocation) (r : ToolResult) (calls : List NetCall)
    (hres : handleInvocation cfg tw env inv = (.ok r, calls))
    (herr : r.isError = true) :
    (∃ e : JsError, r = errResult (errDiagnosticFor inv) e) ∧
    List.isPrefixOf "Error".toList (errDiagnosticFor inv).toList = true := by
  refine ⟨?_, errDiagnostic_starts inv⟩
  cases inv with
  | searchTokens query =>
      simp only [handleInvocation, Prod.mk.injEq, Except.ok.injEq] at hres
      obtain ⟨hr, -⟩ := hres
      rw [← hr] at herr
      simp [okResult] at herr
  | getTrendingTokens =>
      simp only [handleInvocation, Prod.mk.injEq, Except.ok.injEq] at hres
      obtain ⟨hr, -⟩ := hres
      exact ⟨trendingTypeError, hr.symm⟩
  | getTokenInfo address =>
      simp only [handleInvocation, Prod.mk.injEq, Except.ok.injEq] at hres
      obtain ⟨hr, -⟩ := hres
      rw [← hr] at herr ⊢
      exact renderOutcome_error _ _ _ herr
  | getTokenPrice address =>
      simp only [handleInvocation, Prod.mk.injEq, Except.ok.injEq] at hres
      obtain ⟨hr, -⟩ := hres
      rw [← hr] at herr ⊢
      exact renderOutcome_error _ _ _ herr
  | buyToken address solAmount slippage priorityFee pool =>
      simp only [handleInvocation, Prod.mk.injEq, Except.ok.injEq] at hres
      obtain ⟨hr, -⟩ := hres
      rw [← hr] at herr ⊢
      exact renderOutcome_error _ _ _ herr
  | sellToken address tokenAmount slippage priorityFee pool =>
      simp only [handleInvocation, Prod.mk.injEq, Except.ok.injEq] at hres
      obtain ⟨hr, -⟩ := hres
      rw [← hr] at herr ⊢
      exact renderOutcome_error _ _ _ herr
  | searchTweets query count =>
      simp only [handleInvocation, Prod.mk.injEq, Except.ok.injEq] at hres
      obtain ⟨hr, -⟩ := hres
      rw [← hr] at herr
      simp [okResult] at herr
  | postTweet text =>
      simp only [handleInvocation, Prod.mk.injEq, Except.ok.injEq] at hres
      obtain ⟨hr, -⟩ := hres
      rw [← hr] at herr ⊢
      exact renderOutcome_error _ _ _ herr

/-- Witness for C7 at the always-failing get_trending_tokens invocation. -/
theorem C7_witness :
    handleInvocation cfgNoKey twNone envW .getTrendingTokens =
      (.ok (errResult (errDiagnosticFor .getTrendingTokens) trendingTypeError), []) ∧
    (errResult (errDiagnosticFor .getTrendingTokens) trendingTypeError).isError = true ∧
    (∃ e, errResult (errDiagnosticFor .getTrendingTokens) trendingTypeError =
      errResult (errDiagnosticFor .getTrendingTokens) e) ∧
    List.isPrefixOf "Error".toList
      (errDiagnosticFor .getTrendingTokens).toList = true := by
  refine ⟨rfl, rfl, ?_, ?_⟩
  · exact (C7_error_text_shape cfgNoKey twNone envW .getTrendingTokens
      (errResult (errDiagnosticFor .getTrendingTokens) trendingTypeError) []
      rfl rfl).1
  · exact (C7_error_text_shape cfgNoKey twNone envW .getTrendingTokens
      (errResult (errDiagnosticFor .getTrendingTokens) trendingTypeError) []
      rfl rfl).2

/-- listIncludes decides the list-infix relation. -/
theorem listIncludes_iff (needle hay : List Char) :
    listIncludes needle hay = true ↔ needle <:+: hay := by
  induction hay with
  | nil => simp [listIncludes, List.isEmpty_iff]
  | cons c rest ih => simp [listIncludes, List.infix_cons_iff, ih]

/-- The trimmed text is an infix of the original chunk. -/
theorem jsTrim_toList_within (s : String) : (jsTrim s).toList <:+: s.toList := by
  have h1 : s.toList.dropWhile isJsWhitespace <:+ s.toList :=
    List.dropWhile_suffix _
  have h2 : ((s.toList.dropWhile isJsWhitespace).reverse.dropWhile
      isJsWhitespace).reverse <+: s.toList.dropWhile isJsWhitespace := by
    rw [← List.reverse_suffix, List.reverse_reverse]
    exact List.dropWhile_suffix _
  exact h2.isInfix.trans h1.isInfix

/-- A needle contained in the trimmed chunk is contained in the chunk. -/
theorem jsIncludes_of_trim (s needle : String)
    (h : jsIncludes (jsTrim s) needle = true) : jsIncludes s needle = true := by
  rw [jsIncludes, listIncludes_iff] at h ⊢
  exact h.trans (jsTrim_toList_within s)

/-- C9: a chunk is forwarded to the primary channel exactly when its trimmed
    text contains a JSON-RPC 2.0 marker; a forwarded chunk therefore contains
    the marker itself, and every chunk without the marker is redirected to
    the diagnostic channel, so the primary channel never carries a
    non-protocol chunk. -/
theorem C9_stdout_filter (data : String) :
    (routeChunk data = .primary ↔ hasJsonRpcMarker (jsTrim data) = true) ∧
    (routeChunk data = .primary → hasJsonRpcMarker data = true) ∧
    (hasJsonRpcMarker (jsTrim data) = false → routeChunk data = .diagnostic) := by
  have hrc : routeChunk data =
      if hasJsonRpcMarker (jsTrim data) = true then OutChannel.primary
      else OutChannel.diagnostic := rfl
  have hiff : routeChunk data = .primary ↔ hasJsonRpcMarker (jsTrim data) = true := by
    rw [hrc]
    cases hb : hasJsonRpcMarker (jsTrim data) <;> simp [hb]
  refine ⟨hiff, ?_, ?_⟩
  · intro hp
    have hm := hiff.mp hp
    rw [hasJsonRpcMarker] at hm ⊢
    rcases Bool.or_eq_true_iff.mp hm with hA | hB
    · rw [jsIncludes_of_trim data jsonRpcMarkerA hA]
      rfl
    · rw [jsIncludes_of_trim data jsonRpcMarkerB hB, Bool.or_true]
  · intro hm
    rw [hrc, hm]
    simp

/-- Witness for C9 on a chunk carrying the compact marker. -/
theorem C9_witness :
    hasJsonRpcMarker (jsTrim " ok \"jsonrpc\":\"2.0\" x ") = true ∧
    routeChunk " ok \"jsonrpc\":\"2.0\" x " = OutChannel.primary ∧
    hasJsonRpcMarker " ok \"jsonrpc\":\"2.0\" x " = true := by
  have h1 : hasJsonRpcMarker (jsTrim " ok \"jsonrpc\":\"2.0\" x ") = true := by decide
  have h2 := (C9_stdout_filter " ok \"jsonrpc\":\"2.0\" x ").1.mpr h1
  exact ⟨h1, h2, (C9_stdout_filter " ok \"jsonrpc\":\"2.0\" x ").2.1 h2⟩

end AgentLink
